import Mathlib

/-!
Shallow embedding of the MoviWeb application (`src/app.py`): the OMDB
enrichment client `fetch_movie_info`, the Flask route handlers `home`,
`list_users`, `user_movies`, `add_movie`, `update_movie`, `delete_movie`,
and the data-access operations they call.  Python dynamic values are
embedded as `PyVal`, decoded JSON objects and HTML form bodies as
association lists of strings, Python `int()` / `float()` conversions as
fallible parsers returning `Except String`, and the relational store as
lists of users and movies.  Each handler is a pure function from the
store (plus its request environment: method, form body, the external
HTTP response, a fresh primary key, and whether the database commit
raises) to the new store and the HTTP-level result.
-/

namespace MoviWeb

/-- A Python runtime value as it appears in the `Movie` fields: `None`,
a string, an integer, or a float (embedded as a rational). -/
inductive PyVal where
  | null : PyVal
  | str (s : String) : PyVal
  | int (n : Int) : PyVal
  | float (q : ℚ) : PyVal
deriving DecidableEq, Repr

/-- `Option String → PyVal`: the value of `dict.get(key)` used directly
as a field (Python `None` becomes `PyVal.null`). -/
def optStr : Option String → PyVal
  | Option.none => PyVal.null
  | some s => PyVal.str s

/-- A decoded JSON object / an HTML form body: string keys to string
values, as OMDB responses and Flask form bodies carry. -/
def Dict := List (String × String)
deriving DecidableEq, Repr

/-- `d.get(k)` on a Python dict: the first value bound to `k`, or `None`. -/
def dictGet (d : Dict) (k : String) : Option String :=
  (List.find? (fun p => p.1 == k) d).map (fun p => p.2)

/-- Python truthiness of the `fetch_movie_info` result: `None` is falsy,
a dict is truthy iff non-empty. -/
def pyTruthy : Option Dict → Bool
  | Option.none => false
  | some d => !(List.isEmpty d)

/-- All characters are decimal digits. -/
def allDigits (cs : List Char) : Bool := cs.all (fun c => c.isDigit)

/-- Numeric value of a digit string. -/
def digitsVal (cs : List Char) : Nat :=
  cs.foldl (fun a c => a * 10 + (c.toNat - 48)) 0

/-- Parse a decimal natural: non-empty, all digits. -/
def parseNatStr (cs : List Char) : Option Nat :=
  if !cs.isEmpty && allDigits cs then some (digitsVal cs) else Option.none

/-- Strip an optional leading sign, returning the sign and the rest. -/
def stripSign : List Char → Int × List Char
  | '-' :: t => (-1, t)
  | '+' :: t => (1, t)
  | t => (1, t)

/-- Python `int(s)` on a string: optional sign then decimal digits. -/
def parseIntStr (s : String) : Option Int :=
  let (sg, rest) := stripSign s.toList
  (parseNatStr rest).map (fun n => sg * (n : Int))

/-- Python `float(s)` on a string: optional sign, then digits with an
optional decimal point (at least one digit overall). -/
def parseFloatStr (s : String) : Option ℚ :=
  let (sg, rest) := stripSign s.toList
  match rest.splitOn '.' with
  | [ip] =>
      (parseNatStr ip).map (fun n => mkRat (sg * (n : Int)) 1)
  | [ip, fp] =>
      if allDigits ip && allDigits fp && (!ip.isEmpty || !fp.isEmpty) then
        some (mkRat (sg * ((digitsVal ip * 10 ^ fp.length + digitsVal fp : Nat) : Int))
          (10 ^ fp.length))
      else Option.none
  | _ => Option.none

/-- Python `float(x)` applied to `dict.get(key)` (a string or `None`):
raises `TypeError` on `None`, `ValueError` on a malformed string; the
exception text is the `Except.error` payload. -/
def pyFloat : Option String → Except String ℚ
  | Option.none => Except.error "float() argument must be a string or a real number, not NoneType"
  | some s =>
      match parseFloatStr s with
      | some q => Except.ok q
      | Option.none => Except.error ("could not convert string to float: " ++ s)

/-- Python `int(x)` applied to `dict.get(key)` (a string or `None`). -/
def pyInt : Option String → Except String Int
  | Option.none => Except.error "int() argument must be a string, a bytes-like object or a real number, not NoneType"
  | some s =>
      match parseIntStr s with
      | some n => Except.ok n
      | Option.none => Except.error ("invalid literal for int() with base 10: " ++ s)

/-- A row of the `User` table. -/
structure User where
  id : Nat
  name : String
deriving DecidableEq, Repr

/-- A row of the `Movie` table; fields hold the dynamic Python values the
handlers store (`add_movie` stores the raw JSON strings for director and
year, a float for rating; `update_movie` stores a parsed int year). -/
structure Movie where
  id : Nat
  title : PyVal
  director : PyVal
  year : PyVal
  rating : PyVal
  user_id : Nat
deriving DecidableEq, Repr

/-- The persistent store: the `User` and `Movie` tables. -/
structure Store where
  users : List User
  movies : List Movie
deriving DecidableEq, Repr

/-- `User.query.get(user_id)`: primary-key lookup. -/
def queryGetUser (s : Store) (user_id : Nat) : Option User :=
  List.find? (fun u => u.id == user_id) s.users

/-- The HTTP response of the external OMDB endpoint: status code and the
decoded JSON body. -/
structure HttpResponse where
  status_code : Nat
  body : Dict
deriving DecidableEq, Repr

/-- `fetch_movie_info` (src/app.py:21-52): returns the decoded response
body when the status code is 200, `None` otherwise. -/
def fetch_movie_info (response : HttpResponse) : Option Dict :=
  if response.status_code == 200 then some response.body else Option.none

/-- HTTP request method of the routes that accept both. -/
inductive Method where
  | get : Method
  | post : Method
deriving DecidableEq, Repr

/-- The handler-level outcome: a redirect to a location, or a rendered
template together with the error message passed to it. -/
inductive HResult where
  | redirect (location : String) : HResult
  | render (template : String) (error_message : Option String) : HResult
deriving DecidableEq, Repr

/-- `url_for('user_movies', user_id=user_id)`. -/
def userMoviesPath (user_id : Nat) : String :=
  "/users/" ++ toString user_id

/-- `home` (src/app.py:55-62): renders the home page, no store access. -/
def home (s : Store) : Store × HResult :=
  (s, HResult.render "home.html" Option.none)

/-- Modelled from the spec: `list_all_users() -> sequence<User>` of the
Data Access Layer (`SQLiteDataManager`, not in src/) returns every user,
no filtering. -/
def dm_list_all_users (s : Store) : List User :=
  s.users

/-- Modelled from the spec: `get_user_movies(user_id) -> sequence<Movie>`
of the Data Access Layer (not in src/) returns the user's movies, empty
if the user has none or does not exist. -/
def dm_get_user_movies (s : Store) (user_id : Nat) : List Movie :=
  s.movies.filter (fun m => m.user_id == user_id)

/-- Modelled from the spec: `get_movie(user_id, movie_id) -> Movie | absent`
of the Data Access Layer (not in src/): lookup by movie id (user_id is
accepted but not enforced as a scope filter). -/
def dm_get_movie (s : Store) (_user_id movie_id : Nat) : Option Movie :=
  List.find? (fun m => m.id == movie_id) s.movies

/-- Modelled from the spec: `update_movie(user_id, movie_id, fields) -> void`
of the Data Access Layer (not in src/): overwrites title/director/year/rating
of the movie with the given id; no effect when absent. -/
def dm_update_movie (s : Store) (_user_id movie_id : Nat)
    (title director : Option String) (year : Int) (rating : ℚ) : Store :=
  { s with movies := s.movies.map (fun m =>
      if m.id == movie_id then
        { m with title := optStr title, director := optStr director,
                 year := PyVal.int year, rating := PyVal.float rating }
      else m) }

/-- Modelled from the spec: `delete_movie(user_id, movie_id) -> void` of
the Data Access Layer (not in src/): removes the movie with the given id;
no error if already absent. -/
def dm_delete_movie (s : Store) (_user_id movie_id : Nat) : Store :=
  { s with movies := s.movies.filter (fun m => !(m.id == movie_id)) }

/-- `list_users` (src/app.py:65-74): reads the users, renders. -/
def list_users (s : Store) : Store × HResult :=
  let _users := dm_list_all_users s
  (s, HResult.render "users.html" Option.none)

/-- `user_movies` (src/app.py:77-89): reads the user's movies, renders. -/
def user_movies (s : Store) (user_id : Nat) : Store × HResult :=
  let _movies := dm_get_user_movies s user_id
  (s, HResult.render "user_movies.html" Option.none)

/-- `add_movie` (src/app.py:92-144).  Environment parameters: the request
method, the form body, the external API response `resp` (consumed through
`fetch_movie_info`), the fresh primary key the database assigns on
insert, and `commit_error` — `some msg` when `db.session.commit()`
raises (the `except` branch rolls the session back, so the store is
returned unchanged there). -/
def add_movie (method : Method) (s : Store) (user_id : Nat) (form : Dict)
    (resp : HttpResponse) (fresh_id : Nat) (commit_error : Option String) :
    Store × HResult :=
  match method with
  | Method.get => (s, HResult.render "add_movie.html" Option.none)
  | Method.post =>
    let movie_title := dictGet form "name"
    match queryGetUser s user_id with
    | some user =>
      let movie_data := fetch_movie_info resp
      match movie_data with
      | some d =>
        if List.isEmpty d then
          (s, HResult.render "add_movie.html" (some "Movie not found on OMDB"))
        else
          match pyFloat (dictGet d "imdbRating") with
          | Except.error msg =>
              -- float() raised; except-branch: rollback, error_message = str(e)
              (s, HResult.render "add_movie.html" (some msg))
          | Except.ok rating =>
              let new_movie : Movie :=
                { id := fresh_id, title := optStr movie_title,
                  director := optStr (dictGet d "Director"),
                  year := optStr (dictGet d "Year"),
                  rating := PyVal.float rating, user_id := user.id }
              match commit_error with
              | some msg => (s, HResult.render "add_movie.html" (some msg))
              | Option.none =>
                  ({ s with movies := s.movies ++ [new_movie] },
                   HResult.redirect (userMoviesPath user_id))
      | Option.none =>
          (s, HResult.render "add_movie.html" (some "Movie not found on OMDB"))
    | Option.none =>
        (s, HResult.render "add_movie.html" (some "User not found"))

/-- `update_movie` (src/app.py:147-172).  On POST the dict literal
evaluates `int(request.form.get('year'))` then
`float(request.form.get('rating'))`; neither conversion is wrapped in a
handler, so a parse failure propagates out (`Except.error`). -/
def update_movie (method : Method) (s : Store) (user_id movie_id : Nat)
    (form : Dict) : Except String (Store × HResult) :=
  match method with
  | Method.post => do
      let title := dictGet form "title"
      let director := dictGet form "director"
      let year ← pyInt (dictGet form "year")
      let rating ← pyFloat (dictGet form "rating")
      let s2 := dm_update_movie s user_id movie_id title director year rating
      Except.ok (s2, HResult.redirect (userMoviesPath user_id))
  | Method.get =>
      let _movie := dm_get_movie s user_id movie_id
      Except.ok (s, HResult.render "update_movie.html" Option.none)

/-- `delete_movie` (src/app.py:175-188): delete through the Data Access
Layer, redirect to the user's movie list. -/
def delete_movie (s : Store) (user_id movie_id : Nat) : Store × HResult :=
  (dm_delete_movie s user_id movie_id, HResult.redirect (userMoviesPath user_id))

end MoviWeb

namespace MoviWeb

/-! ## Claim theorems -/

/-- Claim C2: a POST to add_movie with a user id that is not in the store
leaves the store completely unchanged and re-renders the add-movie form
with the error message "User not found". -/
theorem add_movie_user_not_found (s : Store) (uid : Nat) (form : Dict)
    (resp : HttpResponse) (fid : Nat) (ce : Option String)
    (h : queryGetUser s uid = Option.none) :
    add_movie Method.post s uid form resp fid ce =
      (s, HResult.render "add_movie.html" (some "User not found")) := by
  simp [add_movie, h]

/-- Witness for C2 at a concrete store with no user 7. -/
theorem add_movie_user_not_found_witness :
    add_movie Method.post ⟨[⟨1, "Alice"⟩], []⟩ 7 [("name", "The Matrix")]
        ⟨200, [("imdbRating", "8.7")]⟩ 10 Option.none =
      (⟨[⟨1, "Alice"⟩], []⟩, HResult.render "add_movie.html" (some "User not found")) :=
  add_movie_user_not_found ⟨[⟨1, "Alice"⟩], []⟩ 7 [("name", "The Matrix")]
    ⟨200, [("imdbRating", "8.7")]⟩ 10 Option.none (by decide)

/-- Claim C5: fetch_movie_info returns the decoded response body exactly
when the HTTP status is 200, and returns absent on any non-success
status (it is a total function: no exception stands in for absent). -/
theorem fetch_movie_info_status_discipline (r : HttpResponse) :
    (fetch_movie_info r = some r.body ↔ r.status_code = 200) ∧
    (r.status_code ≠ 200 → fetch_movie_info r = Option.none) := by
  constructor
  · constructor
    · intro h
      by_contra hne
      simp [fetch_movie_info, hne] at h
    · intro h
      simp [fetch_movie_info, h]
  · intro h
    simp [fetch_movie_info, h]

/-- Witness for C5 at a concrete non-success response. -/
theorem fetch_movie_info_status_discipline_witness :
    fetch_movie_info ⟨404, [("Error", "x")]⟩ = Option.none :=
  (fetch_movie_info_status_discipline ⟨404, [("Error", "x")]⟩).2 (by decide)

/-- Claim C1 counterexample: the user exists and fetch_movie_info returns
a non-absent result (a 200 response whose body is the OMDB not-found
object), yet no movie is added and the handler does not redirect — the
rating conversion raises, so "non-absent" is not sufficient. -/
theorem add_movie_nonabsent_counterexample :
    (fetch_movie_info ⟨200, [("Response", "False"), ("Error", "Movie not found!")]⟩).isSome = true ∧
    (queryGetUser ⟨[⟨1, "Alice"⟩], []⟩ 1).isSome = true ∧
    (add_movie Method.post ⟨[⟨1, "Alice"⟩], []⟩ 1 [("name", "Zxqj")]
        ⟨200, [("Response", "False"), ("Error", "Movie not found!")]⟩ 10 Option.none).1.movies = [] ∧
    (add_movie Method.post ⟨[⟨1, "Alice"⟩], []⟩ 1 [("name", "Zxqj")]
        ⟨200, [("Response", "False"), ("Error", "Movie not found!")]⟩ 10 Option.none).2 ≠
      HResult.redirect (userMoviesPath 1) := by
  refine ⟨rfl, rfl, rfl, ?_⟩
  decide

/-- Claim C1 (amended): on a POST where the user id exists, the fetched
result is a non-empty mapping, the imdbRating field parses as a float,
and the commit succeeds, exactly one new Movie is appended, owned by
that user, with director from the Director field, year from the Year
field, rating the parsed imdbRating, and the handler redirects to the
user movie list. -/
theorem add_movie_success_adds_one (s : Store) (uid : Nat) (u : User)
    (form : Dict) (resp : HttpResponse) (d : Dict) (fid : Nat) (q : ℚ)
    (hu : queryGetUser s uid = some u)
    (hd : fetch_movie_info resp = some d)
    (hne : List.isEmpty d = false)
    (hq : pyFloat (dictGet d "imdbRating") = Except.ok q) :
    add_movie Method.post s uid form resp fid Option.none =
      ({ s with movies := s.movies ++
          [{ id := fid, title := optStr (dictGet form "name"),
             director := optStr (dictGet d "Director"),
             year := optStr (dictGet d "Year"),
             rating := PyVal.float q, user_id := u.id }] },
       HResult.redirect (userMoviesPath uid)) := by
  simp [add_movie, hu, hd, hne, hq]

/-- Witness for C1 (amended) at a concrete successful request. -/
theorem add_movie_success_adds_one_witness :
    add_movie Method.post ⟨[⟨1, "Alice"⟩], []⟩ 1 [("name", "The Matrix")]
        ⟨200, [("Director", "Wachowski"), ("Year", "1999"), ("imdbRating", "8.7")]⟩
        10 Option.none =
      (⟨[⟨1, "Alice"⟩],
        [{ id := 10, title := PyVal.str "The Matrix",
           director := PyVal.str "Wachowski", year := PyVal.str "1999",
           rating := PyVal.float (mkRat 87 10), user_id := 1 }]⟩,
       HResult.redirect (userMoviesPath 1)) := by
  have h := add_movie_success_adds_one ⟨[⟨1, "Alice"⟩], []⟩ 1 ⟨1, "Alice"⟩
    [("name", "The Matrix")]
    ⟨200, [("Director", "Wachowski"), ("Year", "1999"), ("imdbRating", "8.7")]⟩
    [("Director", "Wachowski"), ("Year", "1999"), ("imdbRating", "8.7")] 10 (mkRat 87 10)
    (by decide) (by decide) (by decide) (by rfl)
  simpa [dictGet, optStr] using h

/-- Claim C3 counterexample: on a 200 response whose body indicates the
movie was not found, the truthiness check passes (the decoded object is
a non-empty dict), so the surfaced error is the text of the failed
rating conversion, not "Movie not found on OMDB". -/
theorem add_movie_omdb_notfound_counterexample :
    (add_movie Method.post ⟨[⟨2, "Bob"⟩], []⟩ 2 [("name", "Qwxv")]
        ⟨200, [("Response", "False"), ("Error", "Movie not found!")]⟩ 11 Option.none).2 =
      HResult.render "add_movie.html"
        (some "float() argument must be a string or a real number, not NoneType") ∧
    HResult.render "add_movie.html"
        (some "float() argument must be a string or a real number, not NoneType") ≠
      HResult.render "add_movie.html" (some "Movie not found on OMDB") := by
  exact ⟨rfl, by decide⟩

/-- Claim C3 (amended): with an existing user, a falsy fetch_movie_info
result (absent on non-200 status, or an empty decoded object) leaves the
store unchanged and surfaces "Movie not found on OMDB"; a truthy decoded
object whose imdbRating fails to convert (in particular a 200 not-found
body, which lacks that field) also leaves the store unchanged but
surfaces the conversion exception text instead. -/
theorem add_movie_unresolved_title (s : Store) (uid : Nat) (u : User)
    (form : Dict) (resp : HttpResponse) (fid : Nat) (ce : Option String)
    (hu : queryGetUser s uid = some u) :
    (pyTruthy (fetch_movie_info resp) = false →
      add_movie Method.post s uid form resp fid ce =
        (s, HResult.render "add_movie.html" (some "Movie not found on OMDB"))) ∧
    (∀ d msg, fetch_movie_info resp = some d → List.isEmpty d = false →
      pyFloat (dictGet d "imdbRating") = Except.error msg →
      add_movie Method.post s uid form resp fid ce =
        (s, HResult.render "add_movie.html" (some msg))) := by
  constructor
  · intro hf
    match hfe : fetch_movie_info resp with
    | Option.none => simp [add_movie, hu, hfe]
    | some d =>
        rw [hfe] at hf
        simp only [pyTruthy, Bool.not_eq_false'] at hf
        simp [add_movie, hu, hfe, hf]
  · intro d msg hd hne hq
    simp [add_movie, hu, hd, hne, hq]

/-- Witness for C3 (amended): a non-success response surfaces
"Movie not found on OMDB" and leaves the store unchanged. -/
theorem add_movie_unresolved_title_witness :
    add_movie Method.post ⟨[⟨2, "Bob"⟩], []⟩ 2 [("name", "Qwxv")]
        ⟨503, []⟩ 11 Option.none =
      (⟨[⟨2, "Bob"⟩], []⟩,
       HResult.render "add_movie.html" (some "Movie not found on OMDB")) :=
  (add_movie_unresolved_title ⟨[⟨2, "Bob"⟩], []⟩ 2 ⟨2, "Bob"⟩ [("name", "Qwxv")]
    ⟨503, []⟩ 11 Option.none (by decide)).1 (by decide)

/-- Claim C4: if an exception is raised during movie construction (the
imdbRating conversion) or during persistence (the commit), the except
branch rolls the session back — the store is unchanged — and the raw
exception text is the error message on the re-rendered form. -/
theorem add_movie_exception_rollback (s : Store) (uid : Nat) (u : User)
    (form : Dict) (resp : HttpResponse) (d : Dict) (fid : Nat)
    (ce : Option String) (msg : String)
    (hu : queryGetUser s uid = some u)
    (hd : fetch_movie_info resp = some d)
    (hne : List.isEmpty d = false)
    (hexc : pyFloat (dictGet d "imdbRating") = Except.error msg ∨
            ((∃ q, pyFloat (dictGet d "imdbRating") = Except.ok q) ∧ ce = some msg)) :
    add_movie Method.post s uid form resp fid ce =
      (s, HResult.render "add_movie.html" (some msg)) := by
  rcases hexc with hq | ⟨⟨q, hq⟩, hce⟩
  · simp [add_movie, hu, hd, hne, hq]
  · simp [add_movie, hu, hd, hne, hq, hce]

/-- Witness for C4 at a concrete request whose commit raises. -/
theorem add_movie_exception_rollback_witness :
    add_movie Method.post ⟨[⟨1, "Alice"⟩], []⟩ 1 [("name", "Heat")]
        ⟨200, [("Director", "Mann"), ("Year", "1995"), ("imdbRating", "8.3")]⟩
        12 (some "database is locked") =
      (⟨[⟨1, "Alice"⟩], []⟩,
       HResult.render "add_movie.html" (some "database is locked")) :=
  add_movie_exception_rollback ⟨[⟨1, "Alice"⟩], []⟩ 1 ⟨1, "Alice"⟩
    [("name", "Heat")]
    ⟨200, [("Director", "Mann"), ("Year", "1995"), ("imdbRating", "8.3")]⟩
    [("Director", "Mann"), ("Year", "1995"), ("imdbRating", "8.3")] 12
    (some "database is locked") "database is locked"
    (by decide) (by decide) (by decide)
    (Or.inr ⟨⟨mkRat 83 10, by rfl⟩, rfl⟩)

/-- Claim C6: a POST to update_movie whose year and rating fields parse
as integer and float persists exactly the submitted title, director,
parsed year and parsed rating on the movie with the targeted id, leaves
every other movie unchanged, and redirects to the user movie list. -/
theorem update_movie_post_persists_fields (s : Store) (uid mid : Nat)
    (form : Dict) (y : Int) (q : ℚ)
    (hy : pyInt (dictGet form "year") = Except.ok y)
    (hr : pyFloat (dictGet form "rating") = Except.ok q) :
    update_movie Method.post s uid mid form =
      Except.ok
        ({ s with movies := s.movies.map (fun m =>
            if m.id == mid then
              { m with title := optStr (dictGet form "title"),
                       director := optStr (dictGet form "director"),
                       year := PyVal.int y, rating := PyVal.float q }
            else m) },
         HResult.redirect (userMoviesPath uid)) := by
  simp [update_movie, hy, hr, dm_update_movie, bind, Except.bind]

/-- Witness for C6 at a concrete one-movie store. -/
theorem update_movie_post_persists_fields_witness :
    update_movie Method.post
        ⟨[⟨1, "Alice"⟩],
         [{ id := 5, title := PyVal.str "Old", director := PyVal.str "X",
            year := PyVal.str "1990", rating := PyVal.float (mkRat 5 1), user_id := 1 }]⟩
        1 5 [("title", "New"), ("director", "Y"), ("year", "2001"), ("rating", "7.5")] =
      Except.ok
        (⟨[⟨1, "Alice"⟩],
          [{ id := 5, title := PyVal.str "New", director := PyVal.str "Y",
             year := PyVal.int 2001, rating := PyVal.float (mkRat 75 10), user_id := 1 }]⟩,
         HResult.redirect (userMoviesPath 1)) := by
  have h := update_movie_post_persists_fields
    ⟨[⟨1, "Alice"⟩],
     [{ id := 5, title := PyVal.str "Old", director := PyVal.str "X",
        year := PyVal.str "1990", rating := PyVal.float (mkRat 5 1), user_id := 1 }]⟩
    1 5 [("title", "New"), ("director", "Y"), ("year", "2001"), ("rating", "7.5")]
    2001 (mkRat 75 10) (by rfl) (by rfl)
  simpa [dictGet, optStr] using h

/-- Claim C7: a POST to update_movie whose year field does not parse as
an integer, or whose rating field does not parse as a float, is not
handled inside the handler: the conversion exception propagates out of
update_movie. -/
theorem update_movie_parse_error_propagates (s : Store) (uid mid : Nat)
    (form : Dict)
    (h : (∃ m, pyInt (dictGet form "year") = Except.error m) ∨
         (∃ m, pyFloat (dictGet form "rating") = Except.error m)) :
    ∃ msg, update_movie Method.post s uid mid form = Except.error msg := by
  rcases h with ⟨m, hm⟩ | ⟨m, hm⟩
  · exact ⟨m, by simp [update_movie, hm, bind, Except.bind]⟩
  · match hy : pyInt (dictGet form "year") with
    | Except.error my => exact ⟨my, by simp [update_movie, hy, bind, Except.bind]⟩
    | Except.ok y => exact ⟨m, by simp [update_movie, hy, hm, bind, Except.bind]⟩

/-- Witness for C7 at a concrete malformed year field. -/
theorem update_movie_parse_error_propagates_witness :
    (∃ m, pyInt (dictGet [("title", "T"), ("director", "D"), ("year", "abc"), ("rating", "7.5")] "year") = Except.error m) ∧
    (∃ msg, update_movie Method.post ⟨[⟨1, "Alice"⟩], []⟩ 1 5
        [("title", "T"), ("director", "D"), ("year", "abc"), ("rating", "7.5")] =
      Except.error msg) :=
  ⟨⟨"invalid literal for int() with base 10: abc", by rfl⟩,
   update_movie_parse_error_propagates ⟨[⟨1, "Alice"⟩], []⟩ 1 5
     [("title", "T"), ("director", "D"), ("year", "abc"), ("rating", "7.5")]
     (Or.inl ⟨"invalid literal for int() with base 10: abc", by rfl⟩)⟩

/-- Claim C8: after the delete_movie route runs, a get_movie for the
deleted id returns absent, and running delete_movie again on the same
(already absent) id returns the same store and result — deletion is
idempotent and raises no error (it is a total function). -/
theorem delete_movie_then_get_absent_idempotent (s : Store) (uid uid2 mid : Nat) :
    dm_get_movie (delete_movie s uid mid).1 uid2 mid = Option.none ∧
    delete_movie (delete_movie s uid mid).1 uid mid = delete_movie s uid mid := by
  constructor
  · simp [delete_movie, dm_delete_movie, dm_get_movie, List.find?_eq_none]
  · simp [delete_movie, dm_delete_movie, List.filter_filter]

/-- Claim C9, evaluated at a failing input: the add_movie path stores
the Year field of the JSON body verbatim, so the persisted year is the
string "1999", which is neither an integer nor null — the data-model
typing invariant for year does not hold on the add path. -/
theorem add_movie_stores_raw_string_year :
    (add_movie Method.post ⟨[⟨1, "Alice"⟩], []⟩ 1 [("name", "The Matrix")]
        ⟨200, [("Director", "Wachowski"), ("Year", "1999"), ("imdbRating", "8.7")]⟩
        10 Option.none).1.movies.map (fun m => m.year) = [PyVal.str "1999"] ∧
    (∀ n : Int, PyVal.str "1999" ≠ PyVal.int n) ∧ PyVal.str "1999" ≠ PyVal.null := by
  refine ⟨rfl, ?_, ?_⟩
  · intro n h
    cases h
  · decide

/-- Claim C10: a GET request to add_movie or update_movie, and the
read-only routes home, list_users and user_movies, leave the store
completely unchanged. -/
theorem read_only_routes_leave_store_unchanged (s : Store) (uid mid : Nat)
    (form : Dict) (resp : HttpResponse) (fid : Nat) (ce : Option String) :
    (add_movie Method.get s uid form resp fid ce).1 = s ∧
    update_movie Method.get s uid mid form =
      Except.ok (s, HResult.render "update_movie.html" Option.none) ∧
    (home s).1 = s ∧ (list_users s).1 = s ∧ (user_movies s uid).1 = s :=
  ⟨rfl, rfl, rfl, rfl, rfl⟩

end MoviWeb

